import Mathlib

/-!
Verification development for the ExamFlow frontend (React/TypeScript).

The embedding models the dynamically-typed JavaScript values flowing through
the client (`any`-typed session records, localStorage snapshots, decoded
tokens) with a small `Json` inductive, and translates the functions named by
the claims from their sources:

* `src/frontend/pages/AdminResults.tsx` — `StudentDashboard`'s resume
  resolver: `isServerSessionValid`, `isLocalSessionResumable`, and the
  per-exam labeling loop (`examStatusCheck`).
* `src/frontend/pages/ExamRunner.tsx` — the countdown `tick`, the
  auto-submit watcher guard, and `handleFinishExam`.
* `src/frontend/services/api.ts` — `saveExamProgress`, `submitExam`,
  `getCurrentUser` (local-decode fallback).
* `ResultDetails` (unnamed source part) — `isCorrect`, `handleGrade`.

Numbers are modeled with `Int` (the values compared by the code — remaining
seconds, timestamps, scores — are integral; JS float/NaN literals that
cannot arise on these paths are not modeled, and where `NaN` can arise from
parsing it is modeled as `Option.none`).  `localStorage` is modeled at the
parsed-value level: `JSON.stringify`/`JSON.parse` round-trip plain records,
so the store maps keys to `Json` values directly.
-/

namespace ExamFlow

/-- Model of a JavaScript/JSON runtime value.  `Option Json` is used where a
value may additionally be `undefined` (absent property, `NaN` result). -/
inductive Json where
  | null : Json
  | bool : Bool → Json
  | num : Int → Json
  | str : String → Json
  | arr : List Json → Json
  | obj : List (String × Json) → Json
deriving Repr

/-- Property access `o[k]`: `none` models `undefined` (missing key, or access
on a non-object primitive in the defensive `?.`/`??` chains of the source). -/
def Json.get : Json → String → Option Json
  | .obj fields, k => List.lookup k fields
  | _, _ => none

mutual
/-- JS `String(v)` coercion (array elements that are `null` stringify to the
empty string, per `Array.prototype.join`). -/
def Json.toStr : Json → String
  | .null => "null"
  | .bool b => if b then "true" else "false"
  | .num n => toString n
  | .str s => s
  | .arr xs => String.intercalate "," (Json.toStrElems xs)
  | .obj _ => "[object Object]"

/-- Stringification of array elements for `Json.toStr`. -/
def Json.toStrElems : List Json → List String
  | [] => []
  | .null :: rest => "" :: Json.toStrElems rest
  | v :: rest => Json.toStr v :: Json.toStrElems rest
end

/-- JS `ToNumber` on a trimmed string; `none` models `NaN` (fractional and
exponent literals, which cannot arise for the integral fields compared by
this code, are not modeled). -/
def strToNum (s : String) : Option Int :=
  let t := s.trim
  if t.isEmpty then some 0 else t.toInt?

/-- JS `ToNumber(v)` coercion; `none` models `NaN`.  Arrays coerce through
their string form; plain objects coerce to `NaN`. -/
def Json.toNum : Json → Option Int
  | .null => some 0
  | .bool b => some (if b then 1 else 0)
  | .num n => some n
  | .str s => strToNum s
  | .arr xs => strToNum (Json.toStr (.arr xs))
  | .obj _ => none

/-- JS truthiness of a value (`NaN` is not representable; `Json.num` is
truthy iff nonzero). -/
def Json.truthy : Json → Bool
  | .null => false
  | .bool b => b
  | .num n => n != 0
  | .str s => !s.isEmpty
  | .arr _ => true
  | .obj _ => true

/-- Truthiness of a possibly-`undefined` value. -/
def truthyO : Option Json → Bool
  | none => false
  | some v => v.truthy

/-- Normalize a nullish value: a present `null` becomes `none`, so that
`none` afterwards means "`null` or `undefined`" (the values rejected by
`x == null` and skipped by `x ?? y`). -/
def nn (a : Option Json) : Option Json :=
  match a with
  | some .null => none
  | x => x

/-- JS `a ?? b` on possibly-absent values: the left operand when it is
neither `null` nor `undefined`, otherwise the (normalized) right operand. -/
def orF (a b : Option Json) : Option Json :=
  match nn a with
  | some v => some v
  | none => nn b

/-- JS `a || b` where the right operand is a present value: the left operand
when truthy, otherwise the right. -/
def orT (a : Option Json) (b : Json) : Json :=
  match a with
  | some v => if v.truthy then v else b
  | none => b

/-- JS strict equality `v === 'lit'` against a string literal: true only for
a string value with equal contents. -/
def jsIsStr (v : Json) (s : String) : Bool :=
  match v with
  | .str t => t == s
  | _ => false

/-- JS strict equality `===` between two values.  Arrays and objects compare
by reference in JS; the two operands here are always structurally distinct
heap objects (a freshly parsed answer vs. a stored question record), so the
reference comparison is modeled as `false`. -/
def jsStrictEq : Json → Json → Bool
  | .null, .null => true
  | .bool a, .bool b => a == b
  | .num a, .num b => a == b
  | .str a, .str b => a == b
  | _, _ => false

/-- JS `v > 0` with `ToNumber` coercion on the left operand (`NaN > 0` is
false). -/
def jsGtZero (v : Json) : Bool :=
  match v.toNum with
  | some n => decide (0 < n)
  | none => false

/-! ## Typed data model (src/frontend/types.ts) -/

/-- `QuestionType` enum from types.ts. -/
inductive QuestionType where
  | single_choice
  | multi_choice
  | text
  | image_upload
deriving DecidableEq, Repr

/-- The `status` union `'in_progress' | 'submitted'` of `StudentExamSession`. -/
inductive SessStatus where
  | in_progress
  | submitted
deriving DecidableEq, Repr

/-- The string literal a `SessStatus` stands for. -/
def SessStatus.lit : SessStatus → String
  | .in_progress => "in_progress"
  | .submitted => "submitted"

/-- `StudentExamSession` interface from types.ts.  `answers` maps question
ids to dynamically-typed answer values; the optional `score` and
`questionScores` fields are present only after submission. -/
structure StudentExamSession where
  examId : String
  studentId : String
  startTime : Int
  answers : List (String × Json)
  remainingSeconds : Int
  status : SessStatus
  score : Option Int := none
  questionScores : Option (List (String × Int)) := none
deriving Repr

/-- `User` interface from types.ts.  The `role` union
`'admin' | 'student'` is kept as a `String` because the local-decode
fallback in `getCurrentUser` builds it from untyped token data. -/
structure User where
  id : String
  name : String
  email : String
  role : String
deriving DecidableEq, Repr

/-! ## localStorage model

`localStorage` maps string keys to JSON strings.  `JSON.stringify` followed
by `JSON.parse` is the identity on the plain records stored here, so the
store is modeled at the parsed-value level: keys map to `Json` values. -/

/-- The localStorage contents. -/
def LStore := List (String × Json)

/-- `localStorage.getItem` (already parsed). -/
def lsGet (st : LStore) (k : String) : Option Json :=
  List.lookup k st

/-- `localStorage.setItem` (storing an already-serialized record). -/
def lsSet (st : LStore) (k : String) (v : Json) : LStore :=
  (k, v) :: List.filter (fun p => p.1 != k) st

/-- `localStorage.removeItem`. -/
def lsRemove (st : LStore) (k : String) : LStore :=
  List.filter (fun p => p.1 != k) st

/-- The cache key written by `saveExamProgress` / removed by `submitExam`
(api.ts): the template literal
`exam_session_${session.examId}_${session.studentId}`. -/
def sessionKey (examId studentId : String) : String :=
  "exam_session_" ++ examId ++ "_" ++ studentId

/-- The cache key read by the StudentDashboard local fallback
(AdminResults.tsx): the template literal
`exam_session_${e.id}_${user.id}`. -/
def dashboardKey (examId userId : String) : String :=
  "exam_session_" ++ examId ++ "_" ++ userId

/-- The record `JSON.stringify({ ...session })` writes (object property
order follows the construction order of the session literals in api.ts;
`undefined` optional fields are skipped by `JSON.stringify`). -/
def sessionToJson (s : StudentExamSession) : Json :=
  .obj ([("examId", .str s.examId),
         ("studentId", .str s.studentId),
         ("startTime", .num s.startTime),
         ("answers", .obj s.answers),
         ("remainingSeconds", .num s.remainingSeconds),
         ("status", .str s.status.lit)]
        ++ (match s.score with
            | some n => [("score", Json.num n)]
            | none => [])
        ++ (match s.questionScores with
            | some qs => [("questionScores", Json.obj (qs.map fun p => (p.1, Json.num p.2)))]
            | none => []))

/-! ## Resume Resolver (StudentDashboard, AdminResults.tsx) -/

/-- The label an exam card can carry on the student dashboard
(`examStatusMap` values). -/
inductive Mark where
  | resumable
  | submitted
deriving DecidableEq, Repr

/-- AdminResults.tsx lines 161–168: validate that a server-provided session
record belongs to this exam and user.
```
const sessExamId = sess.examId ?? sess.exam_id ?? null;
const sessStudentId = sess.studentId ?? sess.student_id ?? null;
if (sessExamId == null || sessStudentId == null) return false;
return String(sessExamId) === String(examId) && String(sessStudentId) === String(userId);
``` -/
def isServerSessionValid (sess : Json) (examId userId : String) : Bool :=
  if !sess.truthy then false
  else
    match orF (sess.get "examId") (sess.get "exam_id"),
          orF (sess.get "studentId") (sess.get "student_id") with
    | some eid, some sid => eid.toStr == examId && sid.toStr == userId
    | _, _ => false

/-- AdminResults.tsx lines 172–191: validate a locally-stored session before
marking it resumable.  The stored session must explicitly include both ids;
missing ids are never defaulted to the current context. -/
def isLocalSessionResumable (localSess : Json) (examId userId : String)
    (now endT : Int) : Bool :=
  if !localSess.truthy then false
  else
    match orF (localSess.get "examId") (localSess.get "exam_id"),
          orF (localSess.get "studentId")
              (orF (localSess.get "student_id") (localSess.get "student")) with
    | some sessExamId, some sessStudentId =>
      -- the single-use locals `remaining`, `status` and `start` of the
      -- source are inlined at their use sites
      if jsIsStr ((nn (localSess.get "status")).getD (.str "in_progress")) "submitted" then
        false
      else
        match (orF (localSess.get "remainingSeconds")
            (localSess.get "remaining_seconds")).getD (.num 0) with
        | .num r =>
          if r ≤ 0 then false
          else
            -- `!(start && typeof start === 'number' && start > 0)`
            match (orF (localSess.get "startTime") (localSess.get "start_time")).getD (.num 0) with
            | .num st =>
              if !(Json.truthy (.num st) && decide (0 < st)) then false
              else if now > endT then false
              else if sessExamId.toStr != examId then false
              else if sessStudentId.toStr != userId then false
              else true
            | _ => false
        | _ => false
    | _, _ => false

/-- The condition `sess && isServerSessionValid(sess, e.id, user.id)` of the
per-exam status check (`none` models the `?? null` miss in
`resultsMap[String(e.id)] ?? null`). -/
def serverGuard (sess : Option Json) (examId userId : String) : Bool :=
  match sess with
  | some s => s.truthy && isServerSessionValid s examId userId
  | none => false

/-- The local-fallback arm of the per-exam status check (AdminResults.tsx
lines 220–237): read the cache entry and mark `resumable` only if
`isLocalSessionResumable` accepts it.  `localStored = none` models a missing
key or a `JSON.parse` failure (both leave the exam unlabeled). -/
def localFallback (localStored : Option Json) (examId userId : String)
    (now endT : Int) : Option Mark :=
  match localStored with
  | none => none
  | some l =>
    if isLocalSessionResumable l examId userId now endT then some .resumable else none

/-- One iteration of the StudentDashboard labeling loop (AdminResults.tsx
lines 194–243) for a single exam: reconcile the batched server record with
the local cache entry and produce the exam's label, if any. -/
def examStatusCheck (sess : Option Json) (localStored : Option Json)
    (examId userId : String) (now endT : Int) : Option Mark :=
  if serverGuard sess examId userId then
    match sess with
    | some s =>
      -- Extra server-side sanity re-check of the student id (lines 205–207);
      -- the single-use local `sessStudentId` of the source is inlined
      if ((orF (s.get "studentId") (s.get "student_id")).getD .null).toStr != userId then none
      else if (match s.get "status" with | some v => jsIsStr v "submitted" | none => false) then
        some .submitted
      else if jsGtZero ((nn (s.get "remainingSeconds")).getD (.num 0)) && decide (now ≤ endT) then
        some .resumable
      else none
    | none => none
  else
    localFallback localStored examId userId now endT

/-! ## Session Controller (ExamRunner.tsx) and api.ts -/

/-- One firing of the 1-second interval callback (ExamRunner.tsx lines
31–39): `setTimeLeft(prev => { if (prev <= 0) { clearInterval(timer); return 0; } return prev - 1; })`. -/
def tick (prev : Int) : Int :=
  if prev ≤ 0 then 0 else prev - 1

/-- The guard of the auto-submit watcher effect (ExamRunner.tsx lines
45–52): `timeLeft === 0 && session && session.status !== 'submitted' && !loading && session.startTime > 0`.
When it holds, the effect calls `handleFinishExam(false)`. -/
def autoSubmitGuard (timeLeft : Int) (session : Option StudentExamSession)
    (loading : Bool) : Bool :=
  match session with
  | none => false
  | some s =>
    timeLeft == 0 && s.status != SessStatus.submitted && !loading
      && decide (0 < s.startTime)

/-- api.ts lines 344–363, `saveExamProgress`: write the mirror snapshot into
localStorage under `exam_session_${examId}_${studentId}` (its own failures
swallowed by the inner try/catch, modeled by `localOk`), then attempt the
network PUT; a network failure (`net = .error _`) is logged by the outer
catch and the function returns normally.  The second component is the
function's outcome as seen by a caller: `.ok ()` means it resolved without
throwing. -/
def saveExamProgress (st : LStore) (session : StudentExamSession)
    (localOk : Bool) (net : Except String Unit) : LStore × Except String Unit :=
  let st1 :=
    if localOk then
      lsSet st (sessionKey session.examId session.studentId) (sessionToJson session)
    else st
  match net with
  | .ok _ => (st1, .ok ())
  | .error _ => (st1, .ok ())

/-- api.ts lines 366–392, `submitExam`: POST the final answers; on success
remove the local fallback entry and resolve; on failure throw the server's
detail message without touching the cache.  The mapped session object built
on lines 378–387 is ignored by the only caller under verification
(`handleFinishExam` discards the resolved value), so the success payload is
returned as the raw response data. -/
def submitExam (st : LStore) (session : StudentExamSession)
    (resp : Except String Json) : LStore × Except String Json :=
  match resp with
  | .ok data =>
    (lsRemove st (sessionKey session.examId session.studentId), .ok data)
  | .error detail => (st, .error detail)

/-- Observable outcome of one `handleFinishExam` invocation
(ExamRunner.tsx lines 173–196). -/
structure FinishOutcome where
  /-- whether `window.confirm` was shown -/
  confirmPrompted : Bool
  /-- whether `submitExam` was invoked -/
  submitCalled : Bool
  /-- whether `navigate('/result/...')` ran -/
  navigatedToResult : Bool
  /-- whether the failure `alert` was shown -/
  alertShown : Bool
  /-- the `loading` state after the call settles -/
  loadingAfter : Bool
  /-- localStorage after the call -/
  store : LStore
  /-- the component's `session` state after the call (never mutated here) -/
  sessionAfter : Option StudentExamSession

/-- ExamRunner.tsx lines 173–196, `handleFinishExam(manual)`:
bail out if no session or already loading; on a manual submit show the
confirmation dialog and stop if declined; otherwise set loading, cancel the
pending autosave, and await `submitExam({ ...session, remainingSeconds: timeLeft })` —
navigating to the result view on success, or clearing `loading` and alerting
on failure.  `userConfirms` models the `window.confirm` return value and
`resp` the server's answer to the submit POST. -/
def handleFinishExam (st : LStore) (session : Option StudentExamSession)
    (loading : Bool) (manual : Bool) (userConfirms : Bool) (timeLeft : Int)
    (resp : Except String Json) : FinishOutcome :=
  match session with
  | none =>
    { confirmPrompted := false, submitCalled := false, navigatedToResult := false
      alertShown := false, loadingAfter := loading, store := st, sessionAfter := none }
  | some s =>
    if loading then
      { confirmPrompted := false, submitCalled := false, navigatedToResult := false
        alertShown := false, loadingAfter := loading, store := st, sessionAfter := some s }
    else if manual && !userConfirms then
      { confirmPrompted := true, submitCalled := false, navigatedToResult := false
        alertShown := false, loadingAfter := false, store := st, sessionAfter := some s }
    else
      match submitExam st { s with remainingSeconds := timeLeft } resp with
      | (st1, .ok _) =>
        { confirmPrompted := manual, submitCalled := true, navigatedToResult := true
          alertShown := false, loadingAfter := true, store := st1, sessionAfter := some s }
      | (st1, .error _) =>
        { confirmPrompted := manual, submitCalled := true, navigatedToResult := false
          alertShown := true, loadingAfter := false, store := st1, sessionAfter := some s }

/-! ## Grading (ResultDetails) -/

/-- ResultDetails lines 63–75, `isCorrect(q, userAnswer)`:
single-choice compares `userAnswer === q.correct_answers` strictly;
multi-choice requires both sides to be arrays of equal length with every
correct element contained in the given one; other types are never
auto-correct.  `none` models an `undefined` answer / correct-answer field
(`undefined === undefined` is `true` in JS). -/
def isCorrect (qtype : QuestionType) (correct_answers userAnswer : Option Json) : Bool :=
  match qtype with
  | .single_choice =>
    match userAnswer, correct_answers with
    | none, none => true
    | some a, some b => jsStrictEq a b
    | _, _ => false
  | .multi_choice =>
    match userAnswer, correct_answers with
    | some (.arr given), some (.arr correct) =>
      correct.length == given.length
        && correct.all (fun v => given.any (fun g => jsStrictEq g v))
    | _, _ => false
  | _ => false

/-- Observable outcome of one `handleGrade` invocation. -/
inductive GradeAction where
  /-- route params missing: silent early return, no alert, no network call -/
  | noParams
  /-- `alert('Grade must be a number')`, no network call -/
  | rejectedNaN
  /-- `alert('Grade must be between 0 and max')`, no network call -/
  | rejectedRange
  /-- `updateSessionScore(examId, studentId, qId, ns)` invoked with this score -/
  | sent (score : Int)
deriving DecidableEq, Repr

/-- ResultDetails lines 77–99, `handleGrade(qId, newScore, maxScore)`:
`Number(newScore)` on a `number` argument is the identity, so `newScore = none`
models a `NaN` argument; `maxScore = none` models the optional parameter left
`undefined` (the range check is skipped then). -/
def handleGrade (examId studentId : Option String) (newScore maxScore : Option Int) :
    GradeAction :=
  if !(truthyO (examId.map .str)) || !(truthyO (studentId.map .str)) then .noParams
  else
    match newScore with
    | none => .rejectedNaN
    | some ns =>
      match maxScore with
      | some m => if ns < 0 || m < ns then .rejectedRange else .sent ns
      | none => .sent ns

/-! ## Auth fallback (api.ts getCurrentUser) -/

/-- api.ts lines 79–85: the `User` object built from a locally decoded
token when the `/users/me` call fails.  `||` chains pick the first truthy
value; the role is `'admin'` only when `decoded.role === 'admin'`. -/
def fallbackUser (decoded : Json) : User :=
  { id := Json.toStr (orT (decoded.get "id") (orT (decoded.get "user_id") (.str "")))
    name := Json.toStr (orT (decoded.get "name")
      (orT (decoded.get "full_name") (orT (decoded.get "username") (.str ""))))
    email := Json.toStr (orT (decoded.get "email") (.str ""))
    role := if (match decoded.get "role" with
                | some v => jsIsStr v "admin"
                | none => false)
            then "admin" else "student" }

/-- api.ts lines 67–91, `getCurrentUser(token)`: return `null` for a falsy
token; return the backend's user when `/users/me` succeeds; otherwise decode
the token locally (`decoded = none` models `decodeTokenLocal` returning
`null` on a parse failure) and build `fallbackUser` when the decoded value
is truthy. -/
def getCurrentUser (token : String) (backendResp : Except String User)
    (decoded : Option Json) : Option User :=
  if token.isEmpty then none
  else
    match backendResp with
    | .ok u => some u
    | .error _ =>
      match decoded with
      | none => none
      | some d => if !d.truthy then none else some (fallbackUser d)

/-- A concrete in-progress session used to instantiate witness theorems. -/
def sampleSession : StudentExamSession :=
  { examId := "e1", studentId := "u2", startTime := 5, answers := []
    remainingSeconds := 42, status := .in_progress }

/-! ## Helper lemmas -/

theorem tick_nonneg (v : Int) : 0 ≤ tick v := by
  unfold tick; split <;> omega

theorem tick_le (v : Int) (h : 0 ≤ v) : tick v ≤ v := by
  unfold tick; split <;> omega

theorem tick_iter_nonneg (v : Int) (h : 0 ≤ v) (n : ℕ) : 0 ≤ tick^[n] v := by
  induction n with
  | zero => simpa
  | succ n ih => rw [Function.iterate_succ_apply']; exact tick_nonneg _

theorem isEmpty_false_of_ne {s : String} (h : s ≠ "") : s.isEmpty = false := by
  cases hE : s.isEmpty with
  | false => rfl
  | true => exact absurd ((String.isEmpty_iff s).mp hE) h

theorem lsGet_lsSet_self (st : LStore) (k : String) (v : Json) :
    lsGet (lsSet st k v) k = some v := by
  simp [lsGet, lsSet, List.lookup]

theorem lsGet_lsRemove_self (st : LStore) (k : String) :
    lsGet (lsRemove st k) k = none := by
  unfold lsGet lsRemove
  induction st with
  | nil => rfl
  | cons p rest ih =>
    by_cases h : p.1 = k
    · have hcond : (p.1 != k) = false := by simp [h]
      simp only [List.filter_cons, hcond, Bool.false_eq_true, if_false]
      exact ih
    · have hcond : (p.1 != k) = true := by simp [h]
      have hk : (k == p.1) = false := by simp [Ne.symm h]
      simp only [List.filter_cons, hcond, if_true]
      simp only [List.lookup, hk]
      exact ih

theorem jsIsStr_eq_true {v : Json} {s : String} : jsIsStr v s = true ↔ v = .str s := by
  cases v <;> simp [jsIsStr]

theorem truthy_of_get_orF₂ (l : Json) (k1 k2 : String) (v : Json)
    (h : orF (l.get k1) (l.get k2) = some v) : l.truthy = true := by
  cases l <;> first
    | rfl
    | (exfalso; simp [Json.get, orF, nn] at h)

theorem truthy_of_get_orF₃ (l : Json) (k1 k2 k3 : String) (v : Json)
    (h : orF (l.get k1) (orF (l.get k2) (l.get k3)) = some v) : l.truthy = true := by
  cases l <;> first
    | rfl
    | (exfalso; simp [Json.get, orF, nn] at h)

theorem jsGtZero_eq_true {v : Json} : jsGtZero v = true ↔ ∃ n : Int, v.toNum = some n ∧ 0 < n := by
  unfold jsGtZero
  cases h : v.toNum <;> simp

theorem isLocalSessionResumable_eq_true (l : Json) (examId userId : String) (now endT : Int) :
    isLocalSessionResumable l examId userId now endT = true ↔
      (∃ eid, orF (l.get "examId") (l.get "exam_id") = some eid ∧ eid.toStr = examId) ∧
      (∃ sid, orF (l.get "studentId") (orF (l.get "student_id") (l.get "student")) = some sid
        ∧ sid.toStr = userId) ∧
      (nn (l.get "status")).getD (.str "in_progress") ≠ .str "submitted" ∧
      (∃ r : Int, (orF (l.get "remainingSeconds") (l.get "remaining_seconds")).getD (.num 0)
        = .num r ∧ 0 < r) ∧
      (∃ stv : Int, (orF (l.get "startTime") (l.get "start_time")).getD (.num 0)
        = .num stv ∧ 0 < stv) ∧
      now ≤ endT := by
  constructor
  · intro h
    unfold isLocalSessionResumable at h
    repeat' (first
      | exact absurd h Bool.false_ne_true
      | split at h)
    simp_all [jsIsStr_eq_true, not_le, not_lt, Json.truthy]
  · rintro ⟨⟨eid, h1, he⟩, ⟨sid, h2, hs2⟩, hstat, ⟨r, hr, hr0⟩, ⟨stv, hst, hst0⟩, hnow⟩
    have ht : l.truthy = true := truthy_of_get_orF₂ l _ _ _ h1
    have hstatF : jsIsStr ((nn (l.get "status")).getD (.str "in_progress")) "submitted"
        = false := by
      cases hJ : jsIsStr ((nn (l.get "status")).getD (.str "in_progress")) "submitted" with
      | false => rfl
      | true => exact absurd (jsIsStr_eq_true.mp hJ) hstat
    have htr : (Json.truthy (.num stv) && decide (0 < stv)) = true := by
      simp only [Json.truthy, Bool.and_eq_true, bne_iff_ne, ne_eq, decide_eq_true_eq]
      omega
    unfold isLocalSessionResumable
    rw [ht, h1, h2]
    simp only [Bool.not_true, Bool.false_eq_true, if_false, hr, hst, hstatF]
    rw [if_neg (by omega : ¬ r ≤ 0)]
    rw [htr]
    simp only [Bool.not_true, Bool.false_eq_true, if_false]
    rw [if_neg (by omega : ¬ now > endT)]
    rw [if_neg (by simp [he] : ¬ (eid.toStr != examId) = true)]
    rw [if_neg (by simp [hs2] : ¬ (sid.toStr != userId) = true)]

theorem serverGuard_some_iff (r : Json) (examId userId : String) :
    serverGuard (some r) examId userId = true ↔
      (∃ eid, orF (r.get "examId") (r.get "exam_id") = some eid ∧ eid.toStr = examId) ∧
      (∃ sid, orF (r.get "studentId") (r.get "student_id") = some sid ∧ sid.toStr = userId) := by
  constructor
  · intro h
    simp only [serverGuard, Bool.and_eq_true] at h
    obtain ⟨ht, h⟩ := h
    unfold isServerSessionValid at h
    rw [ht] at h
    simp only [Bool.not_true, Bool.false_eq_true, if_false] at h
    split at h
    case h_1 x1 x2 eid sid heq1 heq2 =>
      rw [Bool.and_eq_true, beq_iff_eq, beq_iff_eq] at h
      exact ⟨⟨eid, heq1, h.1⟩, ⟨sid, heq2, h.2⟩⟩
    case h_2 => exact absurd h Bool.false_ne_true
  · rintro ⟨⟨eid, h1, he⟩, ⟨sid, h2, hs2⟩⟩
    have ht : r.truthy = true := truthy_of_get_orF₂ r _ _ _ h1
    simp only [serverGuard, isServerSessionValid, ht, Bool.not_true, Bool.false_eq_true,
      if_false, h1, h2, Bool.true_and]
    simp [he, hs2]

/-! ## Claim theorems -/

/-- C1: When no valid server-side result record exists for an exam and the
current student, the dashboard labels the exam 'resumable' from the local
cache entry exactly when the parsed entry explicitly carries an examId
matching the exam and a studentId matching the student, a status other than
'submitted', a numeric remainingSeconds strictly greater than 0, a numeric
start timestamp strictly greater than 0, and the current time is not after
the exam's end time; in particular an entry with a missing or mismatched id
is never labeled resumable. -/
theorem c1_local_resume_label (serverSess : Option Json) (l : Json)
    (examId userId : String) (now endT : Int)
    (hns : serverGuard serverSess examId userId = false) :
    examStatusCheck serverSess (some l) examId userId now endT = some .resumable ↔
      (∃ eid, orF (l.get "examId") (l.get "exam_id") = some eid ∧ eid.toStr = examId) ∧
      (∃ sid, orF (l.get "studentId") (orF (l.get "student_id") (l.get "student")) = some sid
        ∧ sid.toStr = userId) ∧
      (nn (l.get "status")).getD (.str "in_progress") ≠ .str "submitted" ∧
      (∃ r : Int, (orF (l.get "remainingSeconds") (l.get "remaining_seconds")).getD (.num 0)
        = .num r ∧ 0 < r) ∧
      (∃ stv : Int, (orF (l.get "startTime") (l.get "start_time")).getD (.num 0)
        = .num stv ∧ 0 < stv) ∧
      now ≤ endT := by
  have hbr : examStatusCheck serverSess (some l) examId userId now endT
      = localFallback (some l) examId userId now endT := by
    unfold examStatusCheck
    rw [hns]
    simp
  have hfb : localFallback (some l) examId userId now endT = some Mark.resumable
      ↔ isLocalSessionResumable l examId userId now endT = true := by
    unfold localFallback
    split <;> simp_all
  rw [hbr, hfb, isLocalSessionResumable_eq_true]

/-- Witness for C1: a well-formed cache entry for exam e1 and student u2,
with no server record present. -/
theorem c1_local_resume_label_witness :
    examStatusCheck none
        (some (.obj [("examId", .str "e1"), ("studentId", .str "u2"),
          ("status", .str "in_progress"), ("remainingSeconds", .num 30),
          ("startTime", .num 99)]))
        "e1" "u2" 10 20 = some .resumable ↔
      (∃ eid, orF ((Json.obj [("examId", .str "e1"), ("studentId", .str "u2"),
          ("status", .str "in_progress"), ("remainingSeconds", .num 30),
          ("startTime", .num 99)]).get "examId")
          ((Json.obj [("examId", .str "e1"), ("studentId", .str "u2"),
          ("status", .str "in_progress"), ("remainingSeconds", .num 30),
          ("startTime", .num 99)]).get "exam_id") = some eid ∧ eid.toStr = "e1") ∧
      (∃ sid, orF ((Json.obj [("examId", .str "e1"), ("studentId", .str "u2"),
          ("status", .str "in_progress"), ("remainingSeconds", .num 30),
          ("startTime", .num 99)]).get "studentId")
          (orF ((Json.obj [("examId", .str "e1"), ("studentId", .str "u2"),
          ("status", .str "in_progress"), ("remainingSeconds", .num 30),
          ("startTime", .num 99)]).get "student_id")
          ((Json.obj [("examId", .str "e1"), ("studentId", .str "u2"),
          ("status", .str "in_progress"), ("remainingSeconds", .num 30),
          ("startTime", .num 99)]).get "student")) = some sid ∧ sid.toStr = "u2") ∧
      (nn ((Json.obj [("examId", .str "e1"), ("studentId", .str "u2"),
          ("status", .str "in_progress"), ("remainingSeconds", .num 30),
          ("startTime", .num 99)]).get "status")).getD (.str "in_progress")
        ≠ .str "submitted" ∧
      (∃ r : Int, (orF ((Json.obj [("examId", .str "e1"), ("studentId", .str "u2"),
          ("status", .str "in_progress"), ("remainingSeconds", .num 30),
          ("startTime", .num 99)]).get "remainingSeconds")
          ((Json.obj [("examId", .str "e1"), ("studentId", .str "u2"),
          ("status", .str "in_progress"), ("remainingSeconds", .num 30),
          ("startTime", .num 99)]).get "remaining_seconds")).getD (.num 0)
        = .num r ∧ 0 < r) ∧
      (∃ stv : Int, (orF ((Json.obj [("examId", .str "e1"), ("studentId", .str "u2"),
          ("status", .str "in_progress"), ("remainingSeconds", .num 30),
          ("startTime", .num 99)]).get "startTime")
          ((Json.obj [("examId", .str "e1"), ("studentId", .str "u2"),
          ("status", .str "in_progress"), ("remainingSeconds", .num 30),
          ("startTime", .num 99)]).get "start_time")).getD (.num 0)
        = .num stv ∧ 0 < stv) ∧
      (10 : Int) ≤ 20 :=
  c1_local_resume_label none
    (.obj [("examId", .str "e1"), ("studentId", .str "u2"),
      ("status", .str "in_progress"), ("remainingSeconds", .num 30),
      ("startTime", .num 99)])
    "e1" "u2" 10 20 rfl

/-- C4: While the session is in progress, a tick of the once-per-second
timer never increases the countdown and never makes it negative: from any
nonnegative value it decrements by exactly 1 when positive and stays at 0
once 0 has been reached, so the iterated tick sequence is monotonically
non-increasing. -/
theorem c4_tick_monotone (v : Int) (h : 0 ≤ v) :
    tick v ≤ v ∧ 0 ≤ tick v ∧ (v = 0 → tick v = 0) ∧ (0 < v → tick v = v - 1) ∧
    (∀ n : ℕ, tick^[n + 1] v ≤ tick^[n] v) := by
  refine ⟨tick_le v h, tick_nonneg v, ?_, ?_, ?_⟩
  · intro hv; unfold tick; split <;> omega
  · intro hv; unfold tick; split <;> omega
  · intro n
    rw [Function.iterate_succ_apply']
    exact tick_le _ (tick_iter_nonneg v h n)

/-- Witness for C4 at the concrete countdown value 5. -/
theorem c4_tick_monotone_witness :
    tick 5 ≤ 5 ∧ 0 ≤ tick 5 ∧ ((5 : Int) = 0 → tick 5 = 0) ∧
    ((0 : Int) < 5 → tick 5 = 5 - 1) ∧
    (∀ n : ℕ, tick^[n + 1] (5 : Int) ≤ tick^[n] (5 : Int)) :=
  c4_tick_monotone 5 (by norm_num)

/-- C5: Whenever the auto-submit watcher's guard holds (countdown at 0,
loaded unsubmitted session with a positive start timestamp, not loading),
the triggered `handleFinishExam(false)` call shows no confirmation dialog
and does invoke the submit; conversely the confirmation dialog is shown only
on a manual invocation. -/
theorem c5_auto_submit_no_confirm :
    (∀ (timeLeft : Int) (session : Option StudentExamSession) (loading : Bool),
      autoSubmitGuard timeLeft session loading = true →
      ∀ (st : LStore) (userConfirms : Bool) (resp : Except String Json),
        (handleFinishExam st session loading false userConfirms timeLeft resp).confirmPrompted
            = false ∧
        (handleFinishExam st session loading false userConfirms timeLeft resp).submitCalled
            = true) ∧
    (∀ (st : LStore) (session : Option StudentExamSession)
        (loading manual userConfirms : Bool) (timeLeft : Int) (resp : Except String Json),
      (handleFinishExam st session loading manual userConfirms timeLeft resp).confirmPrompted
          = true →
      manual = true) := by
  constructor
  · intro timeLeft session loading hg st uc resp
    match session with
    | none => simp [autoSubmitGuard] at hg
    | some s =>
      simp only [autoSubmitGuard, Bool.and_eq_true, Bool.not_eq_eq_eq_not, Bool.not_true] at hg
      obtain ⟨⟨⟨_, _⟩, hl⟩, _⟩ := hg
      subst hl
      cases resp <;> simp [handleFinishExam, submitExam]
  · intro st session loading manual uc tl resp h
    match session with
    | none => simp [handleFinishExam] at h
    | some s =>
      by_cases hl : loading
      · simp [handleFinishExam, hl] at h
      · cases manual with
        | true => rfl
        | false => cases resp <;> simp [handleFinishExam, hl, submitExam] at h

/-- Witness for C5: the auto-submit path at countdown 0 on the sample
session prompts no confirmation and calls submit. -/
theorem c5_auto_submit_no_confirm_witness :
    (handleFinishExam ([] : LStore) (some sampleSession) false false true 0
        (.ok .null)).confirmPrompted = false ∧
    (handleFinishExam ([] : LStore) (some sampleSession) false false true 0
        (.ok .null)).submitCalled = true :=
  c5_auto_submit_no_confirm.1 0 (some sampleSession) false (by decide)
    ([] : LStore) true (.ok .null)

/-- C6: Submission is atomic with respect to the client-held state: when the
server submit call succeeds the cache entry keyed by (examId, studentId) is
removed and the student navigates to the result view; when it fails the
cache is untouched, the failure alert is shown, navigation does not happen,
the loading flag is cleared, and the `session` state (hence its
`in_progress` status) is unchanged so the student may retry.  The hypothesis
`manual = true → userConfirms = true` states that a manual submission has
passed its confirmation step. -/
theorem c6_submit_atomic (st : LStore) (s : StudentExamSession) (manual userConfirms : Bool)
    (timeLeft : Int) (hc : manual = true → userConfirms = true) :
    (∀ data : Json,
      (handleFinishExam st (some s) false manual userConfirms timeLeft (.ok data)).store
          = lsRemove st (sessionKey s.examId s.studentId) ∧
      lsGet (handleFinishExam st (some s) false manual userConfirms timeLeft (.ok data)).store
          (sessionKey s.examId s.studentId) = none ∧
      (handleFinishExam st (some s) false manual userConfirms timeLeft
          (.ok data)).navigatedToResult = true) ∧
    (∀ msg : String,
      (handleFinishExam st (some s) false manual userConfirms timeLeft (.error msg)).store
          = st ∧
      (handleFinishExam st (some s) false manual userConfirms timeLeft
          (.error msg)).alertShown = true ∧
      (handleFinishExam st (some s) false manual userConfirms timeLeft
          (.error msg)).navigatedToResult = false ∧
      (handleFinishExam st (some s) false manual userConfirms timeLeft
          (.error msg)).loadingAfter = false ∧
      (handleFinishExam st (some s) false manual userConfirms timeLeft
          (.error msg)).sessionAfter = some s) := by
  have hmu : (manual && !userConfirms) = false := by
    cases manual with
    | false => rfl
    | true => rw [hc rfl]; rfl
  constructor
  · intro data
    refine ⟨by simp [handleFinishExam, hmu, submitExam], ?_,
      by simp [handleFinishExam, hmu, submitExam]⟩
    simp only [handleFinishExam, hmu, Bool.false_eq_true, if_false, submitExam]
    exact lsGet_lsRemove_self st (sessionKey s.examId s.studentId)
  · intro msg
    refine ⟨?_, ?_, ?_, ?_, ?_⟩ <;> simp [handleFinishExam, hmu, submitExam]

/-- Witness for C6: a confirmed manual submission of the sample session,
with the failing-server conjunct instantiated. -/
theorem c6_submit_atomic_witness :
    (∀ data : Json,
      (handleFinishExam ([] : LStore) (some sampleSession) false true true 7 (.ok data)).store
          = lsRemove ([] : LStore) (sessionKey sampleSession.examId sampleSession.studentId) ∧
      lsGet (handleFinishExam ([] : LStore) (some sampleSession) false true true 7
          (.ok data)).store
          (sessionKey sampleSession.examId sampleSession.studentId) = none ∧
      (handleFinishExam ([] : LStore) (some sampleSession) false true true 7
          (.ok data)).navigatedToResult = true) ∧
    (∀ msg : String,
      (handleFinishExam ([] : LStore) (some sampleSession) false true true 7 (.error msg)).store
          = ([] : LStore) ∧
      (handleFinishExam ([] : LStore) (some sampleSession) false true true 7
          (.error msg)).alertShown = true ∧
      (handleFinishExam ([] : LStore) (some sampleSession) false true true 7
          (.error msg)).navigatedToResult = false ∧
      (handleFinishExam ([] : LStore) (some sampleSession) false true true 7
          (.error msg)).loadingAfter = false ∧
      (handleFinishExam ([] : LStore) (some sampleSession) false true true 7
          (.error msg)).sessionAfter = some sampleSession) :=
  c6_submit_atomic ([] : LStore) sampleSession true true 7 (fun _ => rfl)

/-- C7: `saveExamProgress` always resolves normally (never throws or
rejects), its localStorage mirror write is independent of the network
outcome, and when the local write succeeds the snapshot is stored under the
(examId, studentId) cache key before the call returns. -/
theorem c7_saveExamProgress_never_throws (st : LStore) (session : StudentExamSession)
    (localOk : Bool) (net : Except String Unit) :
    (saveExamProgress st session localOk net).2 = .ok () ∧
    (saveExamProgress st session localOk net).1
      = (saveExamProgress st session localOk (.ok ())).1 ∧
    (localOk = true →
      lsGet (saveExamProgress st session localOk net).1
        (sessionKey session.examId session.studentId) = some (sessionToJson session)) := by
  refine ⟨?_, ?_, ?_⟩
  · cases net <;> rfl
  · cases net <;> rfl
  · intro h
    subst h
    cases net <;> simpa [saveExamProgress] using
      lsGet_lsSet_self st (sessionKey session.examId session.studentId) (sessionToJson session)

/-- Witness for C7 on the sample session with a failing network call. -/
theorem c7_saveExamProgress_never_throws_witness :
    (saveExamProgress ([] : LStore) sampleSession true (.error "offline")).2 = .ok () ∧
    (saveExamProgress ([] : LStore) sampleSession true (.error "offline")).1
      = (saveExamProgress ([] : LStore) sampleSession true (.ok ())).1 ∧
    (true = true →
      lsGet (saveExamProgress ([] : LStore) sampleSession true (.error "offline")).1
        (sessionKey sampleSession.examId sampleSession.studentId)
        = some (sessionToJson sampleSession)) :=
  c7_saveExamProgress_never_throws ([] : LStore) sampleSession true (.error "offline")

/-- C8: With route parameters present, the manual-grading action rejects
(before any network call, with an alert) exactly the scores outside
[0, max_score], and sends exactly the scores inside the range — so -1 and
max_score + 1 are rejected while 0 and max_score are sent. -/
theorem c8_handleGrade_bounds (e s : String) (he : e ≠ "") (hs : s ≠ "") (m ns : Int) :
    (handleGrade (some e) (some s) (some ns) (some m) = .rejectedRange ↔ ns < 0 ∨ m < ns) ∧
    (handleGrade (some e) (some s) (some ns) (some m) = .sent ns ↔ 0 ≤ ns ∧ ns ≤ m) := by
  have he' : e.isEmpty = false := isEmpty_false_of_ne he
  have hs' : s.isEmpty = false := isEmpty_false_of_ne hs
  unfold handleGrade
  simp only [truthyO, Option.map_some', Json.truthy, he', hs']
  by_cases h : ns < 0 ∨ m < ns
  · simp [h]
    omega
  · simp [h]
    omega

/-- Witness for C8 at max_score 10 and score 10 (accepted boundary). -/
theorem c8_handleGrade_bounds_witness :
    (handleGrade (some "e1") (some "u2") (some 10) (some 10) = .rejectedRange ↔
      (10 : Int) < 0 ∨ (10 : Int) < 10) ∧
    (handleGrade (some "e1") (some "u2") (some 10) (some 10) = .sent 10 ↔
      (0 : Int) ≤ 10 ∧ (10 : Int) ≤ 10) :=
  c8_handleGrade_bounds "e1" "u2" (by decide) (by decide) 10 10

/-- C2: For a batched server session record: a record with a missing or
mismatched examId/studentId pair contributes no label (the per-exam check
behaves exactly as if no server record existed); a matching record labels
the exam 'submitted' when its status is 'submitted', labels it 'resumable'
exactly when its status is not 'submitted', its remainingSeconds coerces to
a number strictly greater than 0 and the current time is not after the
exam's end time, and in all remaining cases yields no label at all
(regardless of the local cache). -/
theorem c2_server_record_labeling (r : Json) (localStored : Option Json)
    (examId userId : String) (now endT : Int) :
    (¬ ((∃ eid, orF (r.get "examId") (r.get "exam_id") = some eid ∧ eid.toStr = examId) ∧
        (∃ sid, orF (r.get "studentId") (r.get "student_id") = some sid ∧ sid.toStr = userId)) →
      examStatusCheck (some r) localStored examId userId now endT
        = examStatusCheck none localStored examId userId now endT) ∧
    ((∃ eid, orF (r.get "examId") (r.get "exam_id") = some eid ∧ eid.toStr = examId) ∧
     (∃ sid, orF (r.get "studentId") (r.get "student_id") = some sid ∧ sid.toStr = userId) →
      (r.get "status" = some (.str "submitted") →
        examStatusCheck (some r) localStored examId userId now endT = some .submitted) ∧
      (r.get "status" ≠ some (.str "submitted") →
        (examStatusCheck (some r) localStored examId userId now endT = some .resumable ↔
          (∃ n : Int, ((nn (r.get "remainingSeconds")).getD (.num 0)).toNum = some n ∧ 0 < n)
            ∧ now ≤ endT) ∧
        (¬ ((∃ n : Int, ((nn (r.get "remainingSeconds")).getD (.num 0)).toNum = some n ∧ 0 < n)
            ∧ now ≤ endT) →
          examStatusCheck (some r) localStored examId userId now endT = none))) := by
  constructor
  · intro hnv
    have hg : serverGuard (some r) examId userId = false := by
      cases hG : serverGuard (some r) examId userId with
      | false => rfl
      | true => exact absurd ((serverGuard_some_iff r examId userId).mp hG) hnv
    show examStatusCheck (some r) localStored examId userId now endT
      = examStatusCheck none localStored examId userId now endT
    unfold examStatusCheck
    rw [hg]
    simp [serverGuard]
  · intro hv
    have hg : serverGuard (some r) examId userId = true :=
      (serverGuard_some_iff r examId userId).mpr hv
    obtain ⟨⟨eid, h1, he⟩, ⟨sid, h2, hs2⟩⟩ := hv
    have hsid : ¬ ((((orF (r.get "studentId") (r.get "student_id")).getD .null).toStr
        != userId) = true) := by
      rw [h2]
      simp [hs2]
    have hred : examStatusCheck (some r) localStored examId userId now endT
        = (if (match r.get "status" with | some v => jsIsStr v "submitted" | none => false) then
            some Mark.submitted
          else if jsGtZero ((nn (r.get "remainingSeconds")).getD (.num 0))
              && decide (now ≤ endT) then some Mark.resumable
          else none) := by
      unfold examStatusCheck
      rw [hg]
      simp only [if_true]
      rw [if_neg hsid]
    constructor
    · intro hsub
      rw [hred, hsub]
      simp [jsIsStr]
    · intro hnsub
      have hmF : (match r.get "status" with
          | some v => jsIsStr v "submitted" | none => false) = false := by
        cases hS : r.get "status" with
        | none => rfl
        | some v =>
          cases hJ : jsIsStr v "submitted" with
          | false => exact hJ
          | true =>
            exfalso
            apply hnsub
            rw [← jsIsStr_eq_true.mp hJ]
            exact hS
      constructor
      · rw [hred, hmF]
        simp only [Bool.false_eq_true, if_false]
        have hsplit : (if (jsGtZero ((nn (r.get "remainingSeconds")).getD (.num 0))
            && decide (now ≤ endT)) = true then some Mark.resumable else none)
            = some Mark.resumable
            ↔ (jsGtZero ((nn (r.get "remainingSeconds")).getD (.num 0))
              && decide (now ≤ endT)) = true := by
          split <;> simp_all
        rw [hsplit, Bool.and_eq_true, jsGtZero_eq_true, decide_eq_true_iff]
      · intro hnc
        rw [hred, hmF]
        simp only [Bool.false_eq_true, if_false]
        rw [if_neg]
        intro hx
        rw [Bool.and_eq_true, jsGtZero_eq_true, decide_eq_true_iff] at hx
        exact hnc hx

/-- The concrete server record used by the C2 witness. -/
def sampleServerRecord : Json :=
  .obj [("examId", .str "e1"), ("studentId", .str "u2"),
    ("status", .str "submitted"), ("remainingSeconds", .num 0)]

/-- Witness for C2: a matching submitted server record for exam e1 and
student u2, instantiating every conjunct of the labeling theorem. -/
theorem c2_server_record_labeling_witness :
    (¬ ((∃ eid, orF (sampleServerRecord.get "examId") (sampleServerRecord.get "exam_id")
          = some eid ∧ eid.toStr = "e1") ∧
        (∃ sid, orF (sampleServerRecord.get "studentId") (sampleServerRecord.get "student_id")
          = some sid ∧ sid.toStr = "u2")) →
      examStatusCheck (some sampleServerRecord) none "e1" "u2" 10 20
        = examStatusCheck none none "e1" "u2" 10 20) ∧
    ((∃ eid, orF (sampleServerRecord.get "examId") (sampleServerRecord.get "exam_id")
        = some eid ∧ eid.toStr = "e1") ∧
     (∃ sid, orF (sampleServerRecord.get "studentId") (sampleServerRecord.get "student_id")
        = some sid ∧ sid.toStr = "u2") →
      (sampleServerRecord.get "status" = some (.str "submitted") →
        examStatusCheck (some sampleServerRecord) none "e1" "u2" 10 20 = some .submitted) ∧
      (sampleServerRecord.get "status" ≠ some (.str "submitted") →
        (examStatusCheck (some sampleServerRecord) none "e1" "u2" 10 20 = some .resumable ↔
          (∃ n : Int, ((nn (sampleServerRecord.get "remainingSeconds")).getD (.num 0)).toNum
            = some n ∧ 0 < n) ∧ (10 : Int) ≤ 20) ∧
        (¬ ((∃ n : Int, ((nn (sampleServerRecord.get "remainingSeconds")).getD (.num 0)).toNum
            = some n ∧ 0 < n) ∧ (10 : Int) ≤ 20) →
          examStatusCheck (some sampleServerRecord) none "e1" "u2" 10 20 = none))) :=
  c2_server_record_labeling sampleServerRecord none "e1" "u2" 10 20

/-- C3: For a multi-choice question the grading check accepts exactly the
submitted option lists that are set-equal to the correct-answer set (the
correct answers form a set, and duplicate-free submissions are what the
checkbox UI produces): order-independent exact equality, and any proper
subset or superset is marked incorrect. -/
theorem c3_multi_choice_set_equality (correct given : List String)
    (hc : correct.Nodup) (hg : given.Nodup) :
    (isCorrect .multi_choice (some (.arr (correct.map .str)))
        (some (.arr (given.map .str))) = true
      ↔ given.toFinset = correct.toFinset) ∧
    (given.toFinset ⊂ correct.toFinset ∨ correct.toFinset ⊂ given.toFinset →
      isCorrect .multi_choice (some (.arr (correct.map .str)))
        (some (.arr (given.map .str))) = false) := by
  have key : isCorrect .multi_choice (some (.arr (correct.map .str)))
      (some (.arr (given.map .str))) = true
      ↔ (correct.length = given.length ∧ ∀ c ∈ correct, c ∈ given) := by
    simp [isCorrect, List.all_map, List.any_map, Function.comp, jsStrictEq,
      Bool.and_eq_true, List.all_eq_true, List.any_eq_true, beq_iff_eq]
  have hiff : isCorrect .multi_choice (some (.arr (correct.map .str)))
      (some (.arr (given.map .str))) = true ↔ given.toFinset = correct.toFinset := by
    rw [key]
    constructor
    · rintro ⟨hlen, hsub⟩
      have hsubf : correct.toFinset ⊆ given.toFinset := by
        intro x hx
        rw [List.mem_toFinset] at hx ⊢
        exact hsub x hx
      have hcard : given.toFinset.card ≤ correct.toFinset.card := by
        rw [List.toFinset_card_of_nodup hc, List.toFinset_card_of_nodup hg]
        omega
      exact (Finset.eq_of_subset_of_card_le hsubf hcard).symm
    · intro hEq
      have hlen : correct.length = given.length := by
        rw [← List.toFinset_card_of_nodup hc, ← List.toFinset_card_of_nodup hg, hEq]
      refine ⟨hlen, fun c hcmem => ?_⟩
      have hmem : c ∈ correct.toFinset := List.mem_toFinset.mpr hcmem
      rw [← hEq] at hmem
      exact List.mem_toFinset.mp hmem
  refine ⟨hiff, ?_⟩
  intro hss
  cases hval : isCorrect .multi_choice (some (.arr (correct.map .str)))
      (some (.arr (given.map .str))) with
  | false => rfl
  | true =>
    exfalso
    have hEq := hiff.mp hval
    rcases hss with h1 | h2
    · exact (ssubset_iff_subset_ne.mp h1).2 hEq
    · exact (ssubset_iff_subset_ne.mp h2).2 hEq.symm

/-- Witness for C3: the permuted submission ["b","a"] against the correct
set ["a","b"]. -/
theorem c3_multi_choice_set_equality_witness :
    (isCorrect .multi_choice (some (.arr (["a", "b"].map .str)))
        (some (.arr (["b", "a"].map .str))) = true
      ↔ (["b", "a"] : List String).toFinset = (["a", "b"] : List String).toFinset) ∧
    ((["b", "a"] : List String).toFinset ⊂ (["a", "b"] : List String).toFinset ∨
      (["a", "b"] : List String).toFinset ⊂ (["b", "a"] : List String).toFinset →
      isCorrect .multi_choice (some (.arr (["a", "b"].map .str)))
        (some (.arr (["b", "a"].map .str))) = false) :=
  c3_multi_choice_set_equality ["a", "b"] ["b", "a"] (by decide) (by decide)

/-- C10: When the backend `/users/me` call fails and the token decodes
locally, the returned user is `fallbackUser decoded`, whose role is always
one of 'admin' or 'student' and is 'admin' exactly when the decoded token's
`role` field is the string 'admin'; any other or missing role yields
'student'. -/
theorem c10_fallback_role (token : String) (ht : token ≠ "") (msg : String)
    (d : Json) (hd : d.truthy = true) :
    getCurrentUser token (.error msg) (some d) = some (fallbackUser d) ∧
    ((fallbackUser d).role = "admin" ∨ (fallbackUser d).role = "student") ∧
    ((fallbackUser d).role = "admin" ↔ d.get "role" = some (.str "admin")) := by
  have ht' : token.isEmpty = false := isEmpty_false_of_ne ht
  refine ⟨by simp [getCurrentUser, ht', hd], ?_, ?_⟩
  · unfold fallbackUser
    split <;> simp
  · unfold fallbackUser
    cases h : d.get "role" with
    | none => simp [h]
    | some v =>
      simp only [h]
      by_cases hv : v = Json.str "admin"
      · simp [hv, jsIsStr]
      · have : jsIsStr v "admin" = false := by
          rw [← Bool.not_eq_true, jsIsStr_eq_true]
          exact hv
        simp [this, hv]

/-- Witness for C10 on a decoded token whose role field is 'admin'. -/
theorem c10_fallback_role_witness :
    getCurrentUser "tok" (.error "unreachable") (some (.obj [("role", .str "admin")]))
      = some (fallbackUser (.obj [("role", .str "admin")])) ∧
    ((fallbackUser (.obj [("role", .str "admin")])).role = "admin" ∨
      (fallbackUser (.obj [("role", .str "admin")])).role = "student") ∧
    ((fallbackUser (.obj [("role", .str "admin")])).role = "admin" ↔
      (Json.obj [("role", .str "admin")]).get "role" = some (.str "admin")) :=
  c10_fallback_role "tok" (by decide) "unreachable" (.obj [("role", .str "admin")]) (by decide)

/-- C9: The cache key written by `saveExamProgress` is exactly the key the
dashboard's local fallback reads for the same (exam, student) pair, and the
stored snapshot is read back with its examId, studentId, status,
remainingSeconds and startTime fields intact under the resolver's accessor
chains — the snapshot mirrored by autosave is the one the resolver later
evaluates. -/
theorem c9_autosave_resume_roundtrip (s : StudentExamSession) (st : LStore)
    (net : Except String Unit) :
    sessionKey s.examId s.studentId = dashboardKey s.examId s.studentId ∧
    lsGet (saveExamProgress st s true net).1 (dashboardKey s.examId s.studentId)
      = some (sessionToJson s) ∧
    orF ((sessionToJson s).get "examId") ((sessionToJson s).get "exam_id")
      = some (.str s.examId) ∧
    orF ((sessionToJson s).get "studentId")
        (orF ((sessionToJson s).get "student_id") ((sessionToJson s).get "student"))
      = some (.str s.studentId) ∧
    (nn ((sessionToJson s).get "status")).getD (.str "in_progress") = .str s.status.lit ∧
    (orF ((sessionToJson s).get "remainingSeconds")
        ((sessionToJson s).get "remaining_seconds")).getD (.num 0)
      = .num s.remainingSeconds ∧
    (orF ((sessionToJson s).get "startTime") ((sessionToJson s).get "start_time")).getD (.num 0)
      = .num s.startTime := by
  refine ⟨rfl, ?_, rfl, rfl, rfl, rfl, rfl⟩
  cases net <;>
    exact lsGet_lsSet_self st (sessionKey s.examId s.studentId) (sessionToJson s)

end ExamFlow
